import Mathlib

/-
  Shallow embedding of `src/ukf.cpp` (Unscented Kalman Filter, CTRV model).
  Floating-point arithmetic is modelled by exact real arithmetic; Eigen
  vectors/matrices become functions out of `Fin n`.  Division by zero follows
  Lean's `x / 0 = 0` convention, noted where it matters.
-/

open Real Matrix

/-- Sensor tag of a measurement (`MeasurementPackage::SensorType`). -/
inductive SensorType
  | LASER
  | RADAR
deriving DecidableEq

/-- A `MeasurementPackage`: sensor tag, raw measurement vector (2 entries for
laser, 3 for radar; modelled as `ℕ → ℝ`), and a timestamp in microseconds. -/
structure MeasurementPackage where
  sensor_type_ : SensorType
  raw_measurements_ : ℕ → ℝ
  timestamp_ : ℤ

/-- The mutable fields of class `UKF` (ukf.h / ukf.cpp).  The fixed sizes
`n_x_ = 5`, `n_aug_ = 7`, `2*n_aug_+1 = 15` are baked into the types. -/
structure UKF where
  is_initialized_ : Bool
  use_laser_ : Bool
  use_radar_ : Bool
  x_ : Fin 5 → ℝ
  P_ : Matrix (Fin 5) (Fin 5) ℝ
  time_us_ : ℤ
  lambda_ : ℝ
  weights_ : Fin 15 → ℝ
  Xsig_pred_ : Matrix (Fin 5) (Fin 15) ℝ
  NIS_laser_ : ℝ
  NIS_radar_ : ℝ

/-- Process noise standard deviation, longitudinal acceleration (line 34). -/
noncomputable def std_a_ : ℝ := 0.4
/-- Process noise standard deviation, yaw acceleration (line 37). -/
noncomputable def std_yawdd_ : ℝ := 0.65
/-- Laser measurement noise standard deviation, position1 (line 40). -/
noncomputable def std_laspx_ : ℝ := 0.15
/-- Laser measurement noise standard deviation, position2 (line 43). -/
noncomputable def std_laspy_ : ℝ := 0.15
/-- Radar measurement noise standard deviation, radius (line 46). -/
noncomputable def std_radr_ : ℝ := 0.3
/-- Radar measurement noise standard deviation, angle (line 49). -/
noncomputable def std_radphi_ : ℝ := 0.03
/-- Radar measurement noise standard deviation, radius change (line 52). -/
noncomputable def std_radrd_ : ℝ := 0.3
/-- State vector size (line 58). -/
def n_x_ : ℕ := 5
/-- Augmented vector size (line 61). -/
def n_aug_ : ℕ := 7
/-- The spreading parameter set at the start of `Prediction`:
`lambda_ = 3 - n_aug_` (line 143). -/
noncomputable def lambda_val : ℝ := 3 - (n_aug_ : ℝ)

/-- The `UKF::UKF()` constructor (lines 14-73).  Fields the constructor leaves
uninitialized (`x_`, `weights_`, `Xsig_pred_`, `lambda_` are only allocated,
not assigned) are taken as parameters, standing for arbitrary memory contents;
every field the constructor does assign is set exactly as in the source. -/
noncomputable def UKF.construct (x0 : Fin 5 → ℝ) (w0 : Fin 15 → ℝ)
    (X0 : Matrix (Fin 5) (Fin 15) ℝ) (l0 : ℝ) : UKF :=
  { is_initialized_ := false
    use_laser_ := true
    use_radar_ := true
    x_ := x0
    P_ := !![1, 0, 0, 0, 0;
             0, 1, 0, 0, 0;
             0, 0, 1, 0, 0;
             0, 0, 0, 100, 0;
             0, 0, 0, 0, 100]
    time_us_ := 0
    lambda_ := l0
    weights_ := w0
    Xsig_pred_ := X0
    NIS_laser_ := 0
    NIS_radar_ := 0 }

/-- Two-argument arctangent `atan2(y, x)`, modelled as the complex argument of
`x + y·i`; it agrees with the C library `atan2` at every real input and takes
values in `(-π, π]`. -/
noncomputable def atan2 (y x : ℝ) : ℝ := Complex.arg ((x : ℂ) + (y : ℂ) * Complex.I)

/-- The angle-normalization idiom used at lines 211, 288, 294 and 306:
`theta ↦ atan2(sin(theta), cos(theta))`. -/
noncomputable def normAngle (theta : ℝ) : ℝ := atan2 (Real.sin theta) (Real.cos theta)

/-- Entry `(i, j)` of the lower-triangular Cholesky factor of `A`
(Cholesky-Banachiewicz recursion), modelling Eigen's `llt().matrixL()` used at
line 158.  On a matrix that is not positive definite the real-arithmetic
recursion produces `sqrt` of a negative number (junk value `0`) where IEEE
arithmetic would produce NaN; no claim depends on those values. -/
noncomputable def cholEntry (A : ℕ → ℕ → ℝ) (i j : ℕ) : ℝ :=
  if h1 : j < i then
    (A i j - ∑ k : Fin j, cholEntry A i k * cholEntry A j k) / cholEntry A j j
  else if h2 : i = j then
    Real.sqrt (A i j - ∑ k : Fin j, cholEntry A i k ^ 2)
  else 0
termination_by 2 * j + (if i = j then 0 else 1)
decreasing_by
  all_goals simp_wf
  all_goals first
    | (have hk := k.isLt; split_ifs <;> omega)
    | (split_ifs <;> omega)

/-- Lower-triangular Cholesky factor of a 7×7 matrix (`P_aug.llt().matrixL()`,
line 158). -/
noncomputable def cholL (P : Matrix (Fin 7) (Fin 7) ℝ) : Matrix (Fin 7) (Fin 7) ℝ :=
  fun i j =>
    cholEntry (fun a b => if ha : a < 7 then if hb : b < 7 then P ⟨a, ha⟩ ⟨b, hb⟩ else 0 else 0) i j

/-- The augmented mean vector `X_aug` built at lines 145-148: the state padded
with two zeros. -/
noncomputable def X_aug (s : UKF) : Fin 7 → ℝ := fun i =>
  if h : (i : ℕ) < 5 then s.x_ ⟨i, h⟩ else 0

/-- The augmented covariance `P_aug` built at lines 151-155: `P_` in the top
left block, `std_a_²` and `std_yawdd_²` at `(5,5)` and `(6,6)`, zero elsewhere. -/
noncomputable def P_aug (s : UKF) : Matrix (Fin 7) (Fin 7) ℝ := fun i j =>
  if hi : (i : ℕ) < 5 then
    (if hj : (j : ℕ) < 5 then s.P_ ⟨i, hi⟩ ⟨j, hj⟩ else 0)
  else if (i : ℕ) = 5 ∧ (j : ℕ) = 5 then std_a_ * std_a_
  else if (i : ℕ) = 6 ∧ (j : ℕ) = 6 then std_yawdd_ * std_yawdd_
  else 0

/-- The augmented square-root matrix `A_aug = P_aug.llt().matrixL()` (line 158). -/
noncomputable def A_aug (s : UKF) : Matrix (Fin 7) (Fin 7) ℝ := cholL (P_aug s)

/-- The augmented sigma-point matrix `Xsig_aug` (lines 161-166): column 0 is the
augmented mean, columns `1..7` are `mean + sqrt(lambda_+n_aug_)·A_aug.col(i)`,
columns `8..14` are `mean - sqrt(lambda_+n_aug_)·A_aug.col(i)` (here `7 = n_aug_`). -/
noncomputable def Xsig_aug (s : UKF) : Matrix (Fin 7) (Fin 15) ℝ := fun r c =>
  if (c : ℕ) = 0 then X_aug s r
  else if h : (c : ℕ) ≤ 7 then
    X_aug s r + Real.sqrt (lambda_val + (n_aug_ : ℝ)) * A_aug s r ⟨(c : ℕ) - 1, by omega⟩
  else
    X_aug s r - Real.sqrt (lambda_val + (n_aug_ : ℝ)) *
      A_aug s r ⟨(c : ℕ) - 1 - 7, by have := c.isLt; omega⟩

/-- CTRV propagation of one augmented sigma-point column over `delta_t`
(the body of the loop at lines 169-193).  Component order of `col` is
`[px, py, v, yaw, yawdot, mu_a, mu_yaw]`. -/
noncomputable def ctrvPredictCol (delta_t : ℝ) (col : Fin 7 → ℝ) : Fin 5 → ℝ :=
  let px := col 0
  let py := col 1
  let v := col 2
  let yaw := col 3
  let yawdot := col 4
  let mu_a := col 5
  let mu_yaw := col 6
  let px_step := if |yawdot| > 0.001 then
      v * (Real.sin (yaw + yawdot * delta_t) - Real.sin yaw) / yawdot
    else v * Real.cos yaw * delta_t
  let py_step := if |yawdot| > 0.001 then
      v * (-Real.cos (yaw + yawdot * delta_t) + Real.cos yaw) / yawdot
    else v * Real.sin yaw * delta_t
  ![px + px_step + 0.5 * delta_t * delta_t * Real.cos yaw * mu_a,
    py + py_step + 0.5 * delta_t * delta_t * Real.sin yaw * mu_a,
    v + delta_t * mu_a,
    yaw + yawdot * delta_t + 0.5 * delta_t * delta_t * mu_yaw,
    yawdot + delta_t * mu_yaw]

/-- `UKF::Prediction` (lines 137-214): sets `lambda_`, propagates the sigma
points, recomputes the weights, and reconstructs the state mean and covariance
(yaw deviation normalized per line 211). -/
noncomputable def Prediction (s : UKF) (delta_t : ℝ) : UKF :=
  let Xsig_pred : Matrix (Fin 5) (Fin 15) ℝ := fun r c =>
    ctrvPredictCol delta_t (fun j => Xsig_aug s j c) r
  let weights : Fin 15 → ℝ := fun i =>
    if i = 0 then lambda_val / (lambda_val + (n_aug_ : ℝ))
    else 1 / (2 * (lambda_val + (n_aug_ : ℝ)))
  let x_new : Fin 5 → ℝ := fun r => ∑ i, weights i * Xsig_pred r i
  let x_diff : Fin 15 → Fin 5 → ℝ := fun i r =>
    if r = 3 then normAngle (Xsig_pred 3 i - x_new 3) else Xsig_pred r i - x_new r
  let P_new : Matrix (Fin 5) (Fin 5) ℝ :=
    ∑ i, weights i • Matrix.vecMulVec (x_diff i) (x_diff i)
  { s with lambda_ := lambda_val, x_ := x_new, P_ := P_new,
           weights_ := weights, Xsig_pred_ := Xsig_pred }

/-- The fixed lidar observation matrix `H_` (lines 222-224). -/
noncomputable def H_ : Matrix (Fin 2) (Fin 5) ℝ :=
  !![1, 0, 0, 0, 0;
     0, 1, 0, 0, 0]

/-- The lidar measurement noise `R_` (lines 229-231). -/
noncomputable def R_laser_ : Matrix (Fin 2) (Fin 2) ℝ :=
  !![std_laspx_ * std_laspx_, 0;
     0, std_laspy_ * std_laspy_]

/-- The lidar innovation covariance `S = H_*P_*H_ᵗ + R_` (line 233). -/
noncomputable def lidarS (s : UKF) : Matrix (Fin 2) (Fin 2) ℝ :=
  H_ * s.P_ * H_.transpose + R_laser_

/-- `UKF::UpdateLidar` (lines 220-246).  `S.inverse()` is modelled by the
matrix inverse; the source computes it unconditionally, with no invertibility
check (for singular `S` Eigen produces non-finite entries, while the exact
model's junk convention yields the zero matrix). -/
noncomputable def UpdateLidar (s : UKF) (meas_package : MeasurementPackage) : UKF :=
  let y : Fin 2 → ℝ := (fun i : Fin 2 => meas_package.raw_measurements_ (i : ℕ)) - H_.mulVec s.x_
  let S : Matrix (Fin 2) (Fin 2) ℝ := lidarS s
  let K : Matrix (Fin 5) (Fin 2) ℝ := s.P_ * H_.transpose * S⁻¹
  { s with x_ := s.x_ + K.mulVec y,
           P_ := ((1 : Matrix (Fin 5) (Fin 5) ℝ) - K * H_) * s.P_,
           NIS_laser_ := y ⬝ᵥ S⁻¹.mulVec y }

/-- The in-place near-zero clamp of lines 257-260: any sigma-point column with
`|px| < 0.001` and `|py| < 0.001` gets `px` and `py` overwritten with `0.01`;
every other entry of `Xsig_pred_` is untouched. -/
noncomputable def clampXsig (X : Matrix (Fin 5) (Fin 15) ℝ) : Matrix (Fin 5) (Fin 15) ℝ :=
  fun r c =>
    if |X 0 c| < 0.001 ∧ |X 1 c| < 0.001 then
      (if r = 0 ∨ r = 1 then 0.01 else X r c)
    else X r c

/-- The measurement-space sigma points `Zsig_pred` (lines 261-263), computed
from the (already clamped) predicted sigma points. -/
noncomputable def radarZsig (X : Matrix (Fin 5) (Fin 15) ℝ) : Matrix (Fin 3) (Fin 15) ℝ :=
  fun r c =>
    let px := X 0 c
    let py := X 1 c
    let v := X 2 c
    let yaw := X 3 c
    let rho := Real.sqrt (px * px + py * py)
    if r = 0 then rho
    else if r = 1 then atan2 py px
    else (px * Real.cos yaw * v + py * Real.sin yaw * v) / rho

/-- The radar measurement noise `R_` (lines 274-277). -/
noncomputable def R_radar_ : Matrix (Fin 3) (Fin 3) ℝ :=
  !![std_radr_ * std_radr_, 0, 0;
     0, std_radphi_ * std_radphi_, 0;
     0, 0, std_radrd_ * std_radrd_]

/-- `UKF::UpdateRadar` (lines 252-315).  The first loop clamps near-zero
sigma points in place in `Xsig_pred_` and builds `Zsig_pred`; the second loop
accumulates `S_` and `T_` from the (clamped) `Xsig_pred_`; then gain, state and
covariance updates, with bearing/yaw deviations normalized.  As in
`UpdateLidar`, `S_.inverse()` is computed unconditionally. -/
noncomputable def UpdateRadar (s : UKF) (meas_package : MeasurementPackage) : UKF :=
  let Xc := clampXsig s.Xsig_pred_
  let Zsig := radarZsig Xc
  let z_pred : Fin 3 → ℝ := fun r => ∑ i, s.weights_ i * Zsig r i
  let z_dev : Fin 15 → Fin 3 → ℝ := fun i r =>
    if r = 1 then normAngle (Zsig 1 i - z_pred 1) else Zsig r i - z_pred r
  let x_dev : Fin 15 → Fin 5 → ℝ := fun i r =>
    if r = 3 then normAngle (Xc 3 i - s.x_ 3) else Xc r i - s.x_ r
  let S : Matrix (Fin 3) (Fin 3) ℝ :=
    (∑ i, s.weights_ i • Matrix.vecMulVec (z_dev i) (z_dev i)) + R_radar_
  let T : Matrix (Fin 5) (Fin 3) ℝ :=
    ∑ i, s.weights_ i • Matrix.vecMulVec (x_dev i) (z_dev i)
  let K : Matrix (Fin 5) (Fin 3) ℝ := T * S⁻¹
  let z_diff : Fin 3 → ℝ := fun r =>
    if r = 1 then normAngle (meas_package.raw_measurements_ 1 - z_pred 1)
    else meas_package.raw_measurements_ (r : ℕ) - z_pred r
  { s with Xsig_pred_ := Xc,
           x_ := s.x_ + K.mulVec z_diff,
           P_ := s.P_ - K * S * K.transpose,
           NIS_radar_ := z_diff ⬝ᵥ S⁻¹.mulVec z_diff }

/-- The state on which the post-initialization branch of `ProcessMeasurement`
dispatches: clock updated to the new timestamp (line 106), then `Prediction`
on `dt = (timestamp - time_us_)/1000000` (lines 105, 108). -/
noncomputable def predictedState (s : UKF) (m : MeasurementPackage) : UKF :=
  Prediction { s with time_us_ := m.timestamp_ }
    (((m.timestamp_ - s.time_us_ : ℤ) : ℝ) / 1000000)

/-- `UKF::ProcessMeasurement` (lines 81-130): bootstrap on the first call
(lines 85-103), otherwise predict and dispatch on the alternation flags
(lines 105-123); the commented-out lines 124-128 are dead code and not
modelled.  Note the dispatch never reads `sensor_type_` after initialization. -/
noncomputable def ProcessMeasurement (s : UKF) (meas_package : MeasurementPackage) : UKF :=
  if !s.is_initialized_ then
    match meas_package.sensor_type_ with
    | SensorType.RADAR =>
      let rho := meas_package.raw_measurements_ 0
      let phi := meas_package.raw_measurements_ 1
      let rhodot := meas_package.raw_measurements_ 2
      let px := rho * Real.cos phi
      let py := rho * Real.sin phi
      { s with x_ := ![px, py, rhodot, phi, 0], use_radar_ := false,
               time_us_ := meas_package.timestamp_, is_initialized_ := true }
    | SensorType.LASER =>
      { s with
          x_ := ![meas_package.raw_measurements_ 0, meas_package.raw_measurements_ 1, 0, 0, 0],
          use_laser_ := false,
          time_us_ := meas_package.timestamp_, is_initialized_ := true }
  else
    let s1 := predictedState s meas_package
    if s1.use_laser_ then
      { UpdateLidar s1 meas_package with use_laser_ := false, use_radar_ := true }
    else if s1.use_radar_ then
      { UpdateRadar s1 meas_package with use_radar_ := false, use_laser_ := true }
    else s1

/-- Exactly one of the two alternation flags is set. -/
def flagsAlt (s : UKF) : Prop := s.use_laser_ = !s.use_radar_

/-- A concrete initialized filter state on its laser turn, clock at 10 µs. -/
noncomputable def sLaserTurn : UKF :=
  { is_initialized_ := true
    use_laser_ := true
    use_radar_ := false
    x_ := ![0, 0, 0, 0, 0]
    P_ := 1
    time_us_ := 10
    lambda_ := 0
    weights_ := fun _ => 0
    Xsig_pred_ := fun _ _ => 0
    NIS_laser_ := 0
    NIS_radar_ := 0 }

/-- A concrete measurement with a timestamp (5 µs) earlier than
`sLaserTurn.time_us_` (10 µs): a non-monotonic input. -/
noncomputable def mStale : MeasurementPackage :=
  { sensor_type_ := SensorType.LASER
    raw_measurements_ := fun _ => 0
    timestamp_ := 5 }

/-- A concrete initialized state whose covariance makes the lidar innovation
covariance `S = H_*P_*H_ᵗ + R_` exactly singular (in fact zero): nothing in the
code prevents `P_` from acquiring negative diagonal entries (e.g. via the
`P_ -= K*S*Kᵗ` radar downdate). -/
noncomputable def sSingular : UKF :=
  { sLaserTurn with
      P_ := !![-0.0225, 0, 0, 0, 0;
               0, -0.0225, 0, 0, 0;
               0, 0, 0, 0, 0;
               0, 0, 0, 0, 0;
               0, 0, 0, 0, 0] }

/-- A concrete radar measurement, used to exercise the bootstrap path. -/
noncomputable def mRadar : MeasurementPackage :=
  { sensor_type_ := SensorType.RADAR
    raw_measurements_ := fun _ => 1
    timestamp_ := 3 }

/-- A concrete lidar measurement. -/
noncomputable def mLidar : MeasurementPackage :=
  { sensor_type_ := SensorType.LASER
    raw_measurements_ := fun n => if n = 0 then 5 else 3
    timestamp_ := 7 }

/-- A concrete augmented sigma-point column with `yaw_rate = 1` (arc branch). -/
noncomputable def colArc : Fin 7 → ℝ := ![0, 0, 1, 0, 1, 0, 0]

/-- Junk values standing for the constructor's uninitialized allocations. -/
noncomputable def junkX : Fin 5 → ℝ := fun _ => 0

/-- Junk weight vector for the constructor. -/
noncomputable def junkW : Fin 15 → ℝ := fun _ => 0

/-- Junk predicted-sigma-point matrix for the constructor. -/
noncomputable def junkXsig : Matrix (Fin 5) (Fin 15) ℝ := fun _ _ => 0

/-! ### Helper lemmas -/

theorem predictedState_use_laser (s : UKF) (m : MeasurementPackage) :
    (predictedState s m).use_laser_ = s.use_laser_ := rfl

theorem predictedState_use_radar (s : UKF) (m : MeasurementPackage) :
    (predictedState s m).use_radar_ = s.use_radar_ := rfl

theorem predictedState_is_initialized (s : UKF) (m : MeasurementPackage) :
    (predictedState s m).is_initialized_ = s.is_initialized_ := rfl

theorem ProcessMeasurement_initialized (s : UKF) (m : MeasurementPackage)
    (h : s.is_initialized_ = true) :
    ProcessMeasurement s m =
      if s.use_laser_ then
        { UpdateLidar (predictedState s m) m with use_laser_ := false, use_radar_ := true }
      else if s.use_radar_ then
        { UpdateRadar (predictedState s m) m with use_radar_ := false, use_laser_ := true }
      else predictedState s m := by
  unfold ProcessMeasurement
  rw [h]
  simp only [Bool.not_true, Bool.false_eq_true, if_false]
  rfl

theorem ProcessMeasurement_uninitialized (s : UKF) (m : MeasurementPackage)
    (h : s.is_initialized_ = false) :
    (m.sensor_type_ = SensorType.RADAR →
      ProcessMeasurement s m =
        { s with
            x_ := ![m.raw_measurements_ 0 * Real.cos (m.raw_measurements_ 1),
                    m.raw_measurements_ 0 * Real.sin (m.raw_measurements_ 1),
                    m.raw_measurements_ 2, m.raw_measurements_ 1, 0],
            use_radar_ := false,
            time_us_ := m.timestamp_, is_initialized_ := true }) ∧
    (m.sensor_type_ = SensorType.LASER →
      ProcessMeasurement s m =
        { s with
            x_ := ![m.raw_measurements_ 0, m.raw_measurements_ 1, 0, 0, 0],
            use_laser_ := false,
            time_us_ := m.timestamp_, is_initialized_ := true }) := by
  refine ⟨fun hst => ?_, fun hst => ?_⟩
  · unfold ProcessMeasurement
    rw [h, hst]
    rfl
  · unfold ProcessMeasurement
    rw [h, hst]
    rfl

/-- C4: on the first `ProcessMeasurement` call only, no prediction and no
update runs: a radar first measurement seeds
`[rho·cos(phi), rho·sin(phi), rho_dot, phi, 0]`, a lidar first measurement
seeds `[px, py, 0, 0, 0]`; the covariance is untouched (and the constructor
set it to `diag(1,1,1,100,100)`); the timestamp becomes the clock and the
filter is marked initialized. -/
theorem claim_C4_bootstrap (s : UKF) (m : MeasurementPackage)
    (h : s.is_initialized_ = false) :
    (m.sensor_type_ = SensorType.RADAR →
      ProcessMeasurement s m =
        { s with
            x_ := ![m.raw_measurements_ 0 * Real.cos (m.raw_measurements_ 1),
                    m.raw_measurements_ 0 * Real.sin (m.raw_measurements_ 1),
                    m.raw_measurements_ 2, m.raw_measurements_ 1, 0],
            use_radar_ := false,
            time_us_ := m.timestamp_, is_initialized_ := true }) ∧
    (m.sensor_type_ = SensorType.LASER →
      ProcessMeasurement s m =
        { s with
            x_ := ![m.raw_measurements_ 0, m.raw_measurements_ 1, 0, 0, 0],
            use_laser_ := false,
            time_us_ := m.timestamp_, is_initialized_ := true }) ∧
    (∀ x0 w0 X0 l0, (UKF.construct x0 w0 X0 l0).P_ =
      Matrix.diagonal ![1, 1, 1, 100, 100]) := by
  obtain ⟨hradar, hlaser⟩ := ProcessMeasurement_uninitialized s m h
  refine ⟨hradar, hlaser, fun x0 w0 X0 l0 => ?_⟩
  ext i j
  fin_cases i <;> fin_cases j <;> rfl

theorem claim_C4_bootstrap_witness :
    sLaserTurn.is_initialized_ = false ∨
      (ProcessMeasurement { sLaserTurn with is_initialized_ := false } mLidar =
        { { sLaserTurn with is_initialized_ := false } with
            x_ := ![mLidar.raw_measurements_ 0, mLidar.raw_measurements_ 1, 0, 0, 0],
            use_laser_ := false,
            time_us_ := mLidar.timestamp_, is_initialized_ := true }) :=
  Or.inr
    ((claim_C4_bootstrap { sLaserTurn with is_initialized_ := false } mLidar rfl).2.1 rfl)

/-- C2: the spec requires a `ProcessMeasurement` call whose timestamp is older
than the stored clock (`dt < 0`) to fail fast; the code instead silently
computes the negative `dt`, overwrites the clock with the stale timestamp,
runs `Prediction` with the negative elapsed time and then an update.  At the
concrete stale input the computed `dt` is negative and the call goes through
the full predict-and-update path. -/
theorem claim_C2_no_rejection :
    (((mStale.timestamp_ - sLaserTurn.time_us_ : ℤ) : ℝ) / 1000000 < 0) ∧
    ProcessMeasurement sLaserTurn mStale =
      { UpdateLidar (predictedState sLaserTurn mStale) mStale with
          use_laser_ := false, use_radar_ := true } ∧
    (ProcessMeasurement sLaserTurn mStale).time_us_ = 5 := by
  refine ⟨?_, ?_, ?_⟩
  · norm_num [mStale, sLaserTurn]
  · rfl
  · rfl

/-- C1: after initialization, `ProcessMeasurement` dispatches on the
alternation flags, never on the measurement's own sensor tag: when `use_laser_`
holds, `UpdateLidar` runs and the flags are set to `(false, true)`; otherwise,
when `use_radar_` holds, `UpdateRadar` runs and the flags are set to
`(true, false)`; and the whole result is independent of `sensor_type_`. -/
theorem claim_C1_flag_dispatch (s : UKF) (m : MeasurementPackage)
    (h : s.is_initialized_ = true) :
    (s.use_laser_ = true →
      ProcessMeasurement s m =
        { UpdateLidar (predictedState s m) m with use_laser_ := false, use_radar_ := true }) ∧
    (s.use_laser_ = false → s.use_radar_ = true →
      ProcessMeasurement s m =
        { UpdateRadar (predictedState s m) m with use_radar_ := false, use_laser_ := true }) ∧
    (∀ t : SensorType,
      ProcessMeasurement s m = ProcessMeasurement s { m with sensor_type_ := t }) := by
  refine ⟨fun hl => ?_, fun hl hr => ?_, fun t => ?_⟩
  · rw [ProcessMeasurement_initialized s m h, if_pos hl]
  · rw [ProcessMeasurement_initialized s m h, if_neg (by simp [hl]), if_pos hr]
  · rw [ProcessMeasurement_initialized s m h,
      ProcessMeasurement_initialized s { m with sensor_type_ := t } h]
    rfl

theorem claim_C1_flag_dispatch_witness :
    ProcessMeasurement sLaserTurn mRadar =
      { UpdateLidar (predictedState sLaserTurn mRadar) mRadar with
          use_laser_ := false, use_radar_ := true } :=
  (claim_C1_flag_dispatch sLaserTurn mRadar rfl).1 rfl

/-- C3: the spec requires both update paths to skip the cycle and retain `x_`
and `P_` when the innovation covariance `S` is singular; the code has no such
guard and computes `S.inverse()` unconditionally (lines 235, 244, 300, 313).
The singular case is reachable: at the concrete state `sSingular` the lidar
innovation covariance is exactly the zero matrix, hence not invertible, yet
`UpdateLidar` still applies the full gain/update formulas to it. -/
theorem claim_C3_singular_S_reachable :
    lidarS sSingular = 0 ∧ ¬ IsUnit (lidarS sSingular).det := by
  have h1 : lidarS sSingular = 0 := by
    ext i j
    fin_cases i <;> fin_cases j <;>
      norm_num [lidarS, H_, R_laser_, sSingular, sLaserTurn, std_laspx_, std_laspy_,
        Matrix.mul_apply, Matrix.transpose_apply, Matrix.vecHead, Matrix.vecTail,
        Function.comp, Fin.sum_univ_five, Fin.sum_univ_two]
  refine ⟨h1, ?_⟩
  rw [h1, Matrix.det_zero ⟨0⟩]
  exact not_isUnit_zero

/-- C5: after every `Prediction` call, with `lambda_ = 3 - n_aug_`, the weight
vector satisfies `weights(0) = lambda/(lambda+n_aug)` and
`weights(i) = 1/(2(lambda+n_aug))` for `i ≥ 1`, and the weights sum to 1. -/
theorem claim_C5_weights (s : UKF) (dt : ℝ) :
    (Prediction s dt).lambda_ = 3 - (n_aug_ : ℝ) ∧
    (Prediction s dt).weights_ 0 = lambda_val / (lambda_val + (n_aug_ : ℝ)) ∧
    (∀ i : Fin 15, i ≠ 0 →
      (Prediction s dt).weights_ i = 1 / (2 * (lambda_val + (n_aug_ : ℝ)))) ∧
    (∑ i, (Prediction s dt).weights_ i) = 1 := by
  have hw : (Prediction s dt).weights_ = fun i : Fin 15 =>
      if i = 0 then lambda_val / (lambda_val + (n_aug_ : ℝ))
      else 1 / (2 * (lambda_val + (n_aug_ : ℝ))) := rfl
  refine ⟨rfl, rfl, fun i hi => by rw [hw]; simp [hi], ?_⟩
  rw [hw, Fin.sum_univ_succ]
  norm_num [Fin.succ_ne_zero, Finset.sum_const, Finset.card_univ, nsmul_eq_mul,
    lambda_val, n_aug_]

theorem claim_C5_weights_witness :
    (Prediction sLaserTurn 1).weights_ 1 = 1 / (2 * (lambda_val + (n_aug_ : ℝ))) :=
  (claim_C5_weights sLaserTurn 1).2.2.1 1 (by decide)

/-- C6: every sigma point `Prediction` propagates goes through
`ctrvPredictCol`; that propagation uses the closed-form arc step when
`|yaw_rate| > 1e-3` and the straight-line step otherwise; and a sigma point
with `yaw_rate = 0`, `v = 10`, `yaw = 0`, `dt = 1`, zero process noise gains
exactly `10.0` in `px`. -/
theorem claim_C6_ctrv (s : UKF) (dt : ℝ) (c : Fin 7 → ℝ) (px py : ℝ) :
    (∀ (r : Fin 5) (i : Fin 15),
      (Prediction s dt).Xsig_pred_ r i = ctrvPredictCol dt (fun j => Xsig_aug s j i) r) ∧
    (|c 4| > 0.001 →
      ctrvPredictCol dt c 0 =
        c 0 + c 2 / c 4 * (Real.sin (c 3 + c 4 * dt) - Real.sin (c 3)) +
          0.5 * dt * dt * Real.cos (c 3) * c 5 ∧
      ctrvPredictCol dt c 1 =
        c 1 + c 2 / c 4 * (Real.cos (c 3) - Real.cos (c 3 + c 4 * dt)) +
          0.5 * dt * dt * Real.sin (c 3) * c 5) ∧
    (¬ |c 4| > 0.001 →
      ctrvPredictCol dt c 0 =
        c 0 + c 2 * Real.cos (c 3) * dt + 0.5 * dt * dt * Real.cos (c 3) * c 5 ∧
      ctrvPredictCol dt c 1 =
        c 1 + c 2 * Real.sin (c 3) * dt + 0.5 * dt * dt * Real.sin (c 3) * c 5) ∧
    ctrvPredictCol 1 ![px, py, 10, 0, 0, 0, 0] 0 = px + 10 := by
  refine ⟨fun r i => rfl, fun harc => ⟨?_, ?_⟩, fun hline => ⟨?_, ?_⟩, ?_⟩
  · show (![_, _, _, _, _] : Fin 5 → ℝ) 0 = _
    rw [Matrix.cons_val_zero, if_pos harc]
    ring
  · show (![_, _, _, _, _] : Fin 5 → ℝ) 1 = _
    rw [Matrix.cons_val_one, Matrix.head_cons, if_pos harc]
    ring
  · show (![_, _, _, _, _] : Fin 5 → ℝ) 0 = _
    rw [Matrix.cons_val_zero, if_neg hline]
  · show (![_, _, _, _, _] : Fin 5 → ℝ) 1 = _
    rw [Matrix.cons_val_one, Matrix.head_cons, if_neg hline]
  · have e4 : (![px, py, 10, 0, 0, 0, 0] : Fin 7 → ℝ) 4 = 0 := rfl
    show (![_, _, _, _, _] : Fin 5 → ℝ) 0 = _
    rw [Matrix.cons_val_zero, if_neg (by rw [e4]; norm_num)]
    have e0 : (![px, py, 10, 0, 0, 0, 0] : Fin 7 → ℝ) 0 = px := rfl
    have e2 : (![px, py, 10, 0, 0, 0, 0] : Fin 7 → ℝ) 2 = 10 := rfl
    have e3 : (![px, py, 10, 0, 0, 0, 0] : Fin 7 → ℝ) 3 = 0 := rfl
    have e5 : (![px, py, 10, 0, 0, 0, 0] : Fin 7 → ℝ) 5 = 0 := rfl
    rw [e0, e2, e3, e5, Real.cos_zero]
    ring

theorem claim_C6_ctrv_witness :
    |colArc 4| > 0.001 ∧
    ctrvPredictCol 2 colArc 0 =
      colArc 0 + colArc 2 / colArc 4 * (Real.sin (colArc 3 + colArc 4 * 2) - Real.sin (colArc 3)) +
        0.5 * 2 * 2 * Real.cos (colArc 3) * colArc 5 :=
  ⟨by norm_num [colArc], ((claim_C6_ctrv sLaserTurn 2 colArc 0 0).2.1
    (by norm_num [colArc])).1⟩

/-- C7: in `UpdateRadar`'s measurement-space transform, a sigma point with
both `|px|` and `|py|` below `1e-3` has both components clamped to `0.01`
before the transform, the transformed range is strictly positive for every
sigma point (so the `rho_dot` division is always guarded), and a sigma point
with `px = py = 0` yields range exactly `sqrt(0.01² + 0.01²)`. -/
theorem claim_C7_range_clamp (X : Matrix (Fin 5) (Fin 15) ℝ) (c : Fin 15) :
    (|X 0 c| < 0.001 → |X 1 c| < 0.001 →
      clampXsig X 0 c = 0.01 ∧ clampXsig X 1 c = 0.01) ∧
    0 < radarZsig (clampXsig X) 0 c ∧
    (X 0 c = 0 → X 1 c = 0 →
      radarZsig (clampXsig X) 0 c = Real.sqrt (0.01 ^ 2 + 0.01 ^ 2)) := by
  have happly : ∀ r : Fin 5, clampXsig X r c =
      if |X 0 c| < 0.001 ∧ |X 1 c| < 0.001 then
        (if r = 0 ∨ r = 1 then (0.01 : ℝ) else X r c)
      else X r c := fun r => rfl
  have hrho : radarZsig (clampXsig X) 0 c =
      Real.sqrt (clampXsig X 0 c * clampXsig X 0 c + clampXsig X 1 c * clampXsig X 1 c) := rfl
  refine ⟨fun h0 h1 => ?_, ?_, fun h0 h1 => ?_⟩
  · constructor <;> simp [happly, h0, h1]
  · rw [hrho, Real.sqrt_pos]
    by_cases hc : |X 0 c| < 0.001 ∧ |X 1 c| < 0.001
    · have hx0 : clampXsig X 0 c = 0.01 := by simp [happly, hc.1, hc.2]
      have hx1 : clampXsig X 1 c = 0.01 := by simp [happly, hc.1, hc.2]
      rw [hx0, hx1]
      norm_num
    · have hx0 : clampXsig X 0 c = X 0 c := by rw [happly 0, if_neg hc]
      have hx1 : clampXsig X 1 c = X 1 c := by rw [happly 1, if_neg hc]
      rw [hx0, hx1]
      rcases not_and_or.mp hc with hge | hge
      · have h6 : (0.001 : ℝ) * 0.001 ≤ |X 0 c| * |X 0 c| :=
          mul_le_mul (not_lt.mp hge) (not_lt.mp hge) (by norm_num) (abs_nonneg _)
        rw [abs_mul_abs_self] at h6
        have h7 := mul_self_nonneg (X 1 c)
        nlinarith
      · have h6 : (0.001 : ℝ) * 0.001 ≤ |X 1 c| * |X 1 c| :=
          mul_le_mul (not_lt.mp hge) (not_lt.mp hge) (by norm_num) (abs_nonneg _)
        rw [abs_mul_abs_self] at h6
        have h7 := mul_self_nonneg (X 0 c)
        nlinarith
  · have hc : |X 0 c| < 0.001 ∧ |X 1 c| < 0.001 := by rw [h0, h1]; norm_num
    have hx0 : clampXsig X 0 c = 0.01 := by simp [happly, hc.1, hc.2]
    have hx1 : clampXsig X 1 c = 0.01 := by simp [happly, hc.1, hc.2]
    rw [hrho, hx0, hx1]
    norm_num

theorem claim_C7_range_clamp_witness :
    radarZsig (clampXsig junkXsig) 0 0 = Real.sqrt (0.01 ^ 2 + 0.01 ^ 2) :=
  (claim_C7_range_clamp junkXsig 0).2.2 rfl rfl

/-- C8: the angle normalization `theta ↦ atan2(sin theta, cos theta)` always
lands in `(-π, π]`, is the identity on angles already in `(-π, π]`, and sends
`π + ε` to exactly `-π + ε` for `0 < ε ≤ 2π`. -/
theorem claim_C8_normAngle (theta : ℝ) :
    normAngle theta ∈ Set.Ioc (-π) π ∧
    (theta ∈ Set.Ioc (-π) π → normAngle theta = theta) ∧
    (∀ eps : ℝ, 0 < eps → eps ≤ 2 * π → normAngle (π + eps) = -π + eps) := by
  refine ⟨⟨Complex.neg_pi_lt_arg _, Complex.arg_le_pi _⟩, fun ht => ?_, fun eps h1 h2 => ?_⟩
  · show Complex.arg ((Real.cos theta : ℂ) + (Real.sin theta : ℂ) * Complex.I) = theta
    rw [Complex.ofReal_cos, Complex.ofReal_sin]
    exact Complex.arg_cos_add_sin_mul_I ht
  · have hshift : π + eps = (-π + eps) + 2 * π := by ring
    show Complex.arg ((Real.cos (π + eps) : ℂ) + (Real.sin (π + eps) : ℂ) * Complex.I) = -π + eps
    rw [hshift, Real.cos_add_two_pi, Real.sin_add_two_pi,
      Complex.ofReal_cos, Complex.ofReal_sin]
    exact Complex.arg_cos_add_sin_mul_I ⟨by linarith, by linarith⟩

theorem claim_C8_normAngle_witness :
    normAngle 0 = 0 ∧ normAngle (π + 1) = -π + 1 :=
  ⟨(claim_C8_normAngle 0).2.1 ⟨by linarith [Real.pi_pos], by linarith [Real.pi_pos]⟩,
   (claim_C8_normAngle 0).2.2 1 one_pos (by linarith [Real.pi_gt_three])⟩

theorem step_flags (s : UKF) (m : MeasurementPackage) (h : s.is_initialized_ = true)
    (halt : flagsAlt s) :
    (ProcessMeasurement s m).is_initialized_ = true ∧
    (ProcessMeasurement s m).use_laser_ = !s.use_laser_ ∧
    (ProcessMeasurement s m).use_radar_ = !s.use_radar_ := by
  unfold flagsAlt at halt
  rw [ProcessMeasurement_initialized s m h]
  cases hl : s.use_laser_ <;> rw [hl] at halt
  · have hr : s.use_radar_ = true := by
      cases hr : s.use_radar_
      · rw [hr] at halt
        exact absurd halt (by decide)
      · rfl
    rw [hr]
    simp only [Bool.false_eq_true, if_false, if_pos rfl]
    exact ⟨h, rfl, rfl⟩
  · simp only [if_pos rfl]
    have hr : s.use_radar_ = false := by
      cases hr : s.use_radar_
      · rfl
      · rw [hr] at halt
        exact absurd halt (by decide)
    rw [hr]
    exact ⟨h, rfl, rfl⟩

theorem foldl_flags (ms : List MeasurementPackage) :
    ∀ s : UKF, s.is_initialized_ = true → flagsAlt s →
      (ms.foldl ProcessMeasurement s).is_initialized_ = true ∧
      flagsAlt (ms.foldl ProcessMeasurement s) := by
  induction ms with
  | nil => exact fun s h1 h2 => ⟨h1, h2⟩
  | cons m ms ih =>
    intro s h1 h2
    obtain ⟨hi, hl, hr⟩ := step_flags s m h1 h2
    have halt2 : flagsAlt (ProcessMeasurement s m) := by
      unfold flagsAlt at h2 ⊢
      rw [hl, hr, h2, Bool.not_not]
    rw [List.foldl_cons]
    exact ih (ProcessMeasurement s m) hi halt2

theorem construct_first_flags (x0 : Fin 5 → ℝ) (w0 : Fin 15 → ℝ)
    (X0 : Matrix (Fin 5) (Fin 15) ℝ) (l0 : ℝ) (m : MeasurementPackage) :
    (ProcessMeasurement (UKF.construct x0 w0 X0 l0) m).is_initialized_ = true ∧
    flagsAlt (ProcessMeasurement (UKF.construct x0 w0 X0 l0) m) := by
  obtain ⟨h4, h5⟩ := ProcessMeasurement_uninitialized (UKF.construct x0 w0 X0 l0) m rfl
  cases hst : m.sensor_type_
  · rw [h5 hst]
    exact ⟨rfl, rfl⟩
  · rw [h4 hst]
    exact ⟨rfl, rfl⟩

/-- C9: starting from the constructor state, after every `ProcessMeasurement`
call (the bootstrapping one included) the filter is initialized and exactly
one of `use_laser_`/`use_radar_` is set; and every post-initialization call
flips both flags, so successive calls strictly alternate between the lidar
and the radar update. -/
theorem claim_C9_alternation (x0 : Fin 5 → ℝ) (w0 : Fin 15 → ℝ)
    (X0 : Matrix (Fin 5) (Fin 15) ℝ) (l0 : ℝ)
    (m : MeasurementPackage) (ms : List MeasurementPackage) :
    (((m :: ms).foldl ProcessMeasurement (UKF.construct x0 w0 X0 l0)).is_initialized_ = true ∧
     flagsAlt ((m :: ms).foldl ProcessMeasurement (UKF.construct x0 w0 X0 l0))) ∧
    (∀ (s : UKF) (mnext : MeasurementPackage), s.is_initialized_ = true → flagsAlt s →
      (ProcessMeasurement s mnext).use_laser_ = !s.use_laser_ ∧
      (ProcessMeasurement s mnext).use_radar_ = !s.use_radar_ ∧
      flagsAlt (ProcessMeasurement s mnext)) := by
  constructor
  · rw [List.foldl_cons]
    obtain ⟨h1, h2⟩ := construct_first_flags x0 w0 X0 l0 m
    exact foldl_flags ms _ h1 h2
  · intro s mnext h1 h2
    obtain ⟨_, hl, hr⟩ := step_flags s mnext h1 h2
    refine ⟨hl, hr, ?_⟩
    unfold flagsAlt at h2 ⊢
    rw [hl, hr, h2, Bool.not_not]

theorem claim_C9_alternation_witness :
    flagsAlt (([mRadar] : List MeasurementPackage).foldl ProcessMeasurement
      (UKF.construct junkX junkW junkXsig 0)) :=
  (claim_C9_alternation junkX junkW junkXsig 0 mRadar []).1.2

theorem clampXsig_apply (X : Matrix (Fin 5) (Fin 15) ℝ) (r : Fin 5) (c : Fin 15) :
    clampXsig X r c =
      if |X 0 c| < 0.001 ∧ |X 1 c| < 0.001 then
        (if r = 0 ∨ r = 1 then (0.01 : ℝ) else X r c)
      else X r c := rfl

theorem clampXsig_idem (X : Matrix (Fin 5) (Fin 15) ℝ) :
    clampXsig (clampXsig X) = clampXsig X := by
  funext r c
  by_cases hc : |X 0 c| < 0.001 ∧ |X 1 c| < 0.001
  · have e0 : clampXsig X 0 c = 0.01 := by simp [clampXsig_apply, hc.1, hc.2]
    have e1 : clampXsig X 1 c = 0.01 := by simp [clampXsig_apply, hc.1, hc.2]
    have habs : ¬(|(0.01 : ℝ)| < 0.001 ∧ |(0.01 : ℝ)| < 0.001) := by
      rw [abs_of_pos (show (0 : ℝ) < 0.01 by norm_num)]
      norm_num
    rw [clampXsig_apply (clampXsig X), e0, e1, if_neg habs]
  · have e0 : clampXsig X 0 c = X 0 c := by rw [clampXsig_apply, if_neg hc]
    have e1 : clampXsig X 1 c = X 1 c := by rw [clampXsig_apply, if_neg hc]
    rw [clampXsig_apply (clampXsig X), e0, e1, if_neg hc,
      clampXsig_apply X r c, if_neg hc]

/-- C10: the near-zero clamp in `UpdateRadar` is persistent, not transient:
the clamped values are written back into the retained `Xsig_pred_` matrix
(so the state-space deviations of the same call, and any later reader, see
them — `UpdateRadar` depends on `Xsig_pred_` only through its clamped form),
rows 2-4 of clamped columns and all entries of non-clamped columns are left
unchanged. -/
theorem claim_C10_clamp_written_back (s : UKF) (m : MeasurementPackage)
    (X : Matrix (Fin 5) (Fin 15) ℝ) (r : Fin 5) (c : Fin 15) :
    (UpdateRadar s m).Xsig_pred_ = clampXsig s.Xsig_pred_ ∧
    UpdateRadar { s with Xsig_pred_ := clampXsig s.Xsig_pred_ } m = UpdateRadar s m ∧
    (|X 0 c| < 0.001 ∧ |X 1 c| < 0.001 →
      clampXsig X 0 c = 0.01 ∧ clampXsig X 1 c = 0.01 ∧
      (r ≠ 0 → r ≠ 1 → clampXsig X r c = X r c)) ∧
    (¬(|X 0 c| < 0.001 ∧ |X 1 c| < 0.001) → clampXsig X r c = X r c) := by
  refine ⟨rfl, ?_, fun hc => ⟨?_, ?_, fun hr0 hr1 => ?_⟩, fun hc => ?_⟩
  · obtain ⟨i1, l1, r1, x1, P1, t1, lam1, w1, X1, n1, n2⟩ := s
    simp only [UpdateRadar]
    rw [clampXsig_idem]
  · simp [clampXsig_apply, hc.1, hc.2]
  · simp [clampXsig_apply, hc.1, hc.2]
  · rw [clampXsig_apply, if_pos hc, if_neg (by simp [hr0, hr1])]
  · rw [clampXsig_apply, if_neg hc]

theorem claim_C10_clamp_written_back_witness :
    clampXsig junkXsig 0 0 = 0.01 ∧ clampXsig junkXsig 1 0 = 0.01 :=
  ⟨((claim_C10_clamp_written_back sLaserTurn mRadar junkXsig 0 0).2.2.1
      (by norm_num [junkXsig])).1,
   ((claim_C10_clamp_written_back sLaserTurn mRadar junkXsig 0 0).2.2.1
      (by norm_num [junkXsig])).2.1⟩
